import Mathlib

/-!
Shallow embedding of `drivers/misc/geekbox-fan.c` (Geekbox GPIO fan driver)
and proofs about its mode controller and thermal poll loop.

The driver state (`struct gbox_fan_data`) is modelled by `FanState`; the
workqueue collaborator is modelled by a pending-work counter plus the delay
of the pending item, with the Linux `schedule_delayed_work` /
`cancel_delayed_work` semantics (scheduling while a work item is already
pending is a no-op that returns false).  Each driver function is embedded
as the list of primitive actions it performs, in source order, folded over
the state; this keeps both the state effect and the order of the calls
(cancel before pin write, etc.) visible to theorems.
-/

namespace GboxFan

/-- `#define GBOX_FAN_TRIG_TEMP 50`: default trigger temperature. -/
def GBOX_FAN_TRIG_TEMP : Int := 50

/-- Modelled from the spec: `HZ` (jiffies per second) comes from the kernel
configuration, which is not under `src/`; the spec only speaks of a fixed
30-second interval, so the concrete value is irrelevant to the claims. -/
def HZ : Int := 100

/-- `#define GBOX_FAN_LOOP_SECS 30 * HZ`: the 30-second poll interval. -/
def GBOX_FAN_LOOP_SECS : Int := 30 * HZ

/-- `#define GBOX_FAN_LOOP_NODELAY_SECS 0`: immediate scheduling delay. -/
def GBOX_FAN_LOOP_NODELAY_SECS : Int := 0

/-- `#define GBOX_FAN_GPIO_OFF 0`. -/
def GBOX_FAN_GPIO_OFF : Int := 0

/-- `#define GBOX_FAN_GPIO_ON 1`. -/
def GBOX_FAN_GPIO_ON : Int := 1

/-- `GBOX_FAN_STATE_OFF = 0` from `enum gbox_fan_mode`. -/
def GBOX_FAN_STATE_OFF : Int := 0

/-- `GBOX_FAN_STATE_ON = 1` from `enum gbox_fan_mode`. -/
def GBOX_FAN_STATE_ON : Int := 1

/-- `GBOX_FAN_STATE_AUTO = 2` from `enum gbox_fan_mode`. -/
def GBOX_FAN_STATE_AUTO : Int := 2

/-- Modelled from the spec: `INVALID_TEMP` is the sentinel returned by the
voltage-to-temperature conversion when the reading is invalid; it is defined
in `linux/rockchip/common.h`, which is not under `src/`.  The driver only
compares readings against it with `!=`, so its concrete value never matters
to the claims; `INT_MAX` is used. -/
def INVALID_TEMP : Int := 2147483647

/-- Linux `EINVAL` errno (22); `fan_mode_store` returns `-EINVAL`. -/
def EINVAL : Int := 22

/-- The controller state: the fields of `struct gbox_fan_data` that carry
logic (`mode`, `trig_temp`) together with the state of the two hardware
collaborators the driver owns: the GPIO line's last written value (`pin`)
and the delayed-work item (`pendingCount` pending instances — the kernel
allows at most one per `delayed_work` object — and the delay of the
pending instance).  `mode` is an `Int` because `fan_mode_store` writes an
arbitrary parsed integer into the enum-typed field. -/
structure FanState where
  mode : Int
  trig_temp : Int
  pin : Int
  pendingCount : Nat
  pendingDelay : Int
deriving DecidableEq, Repr

/-- `gpio_set_value(fan_data->ctrl_gpio, v)`: drive the output line. -/
def gpio_set_value (s : FanState) (v : Int) : FanState :=
  { s with pin := v }

/-- `cancel_delayed_work(&fan_data->work)`: remove the pending work item if
any; returns whether an item was pending (the driver ignores this). -/
def cancel_delayed_work (s : FanState) : Bool × FanState :=
  (s.pendingCount ≠ 0, { s with pendingCount := 0 })

/-- `schedule_delayed_work(&fan_data->work, delay)`: queue the work item to
run after `delay` jiffies.  Kernel semantics: if the item is already
pending this is a no-op returning `false`; otherwise it is queued and
`true` is returned.  The driver ignores the result. -/
def schedule_delayed_work (s : FanState) (delay : Int) : Bool × FanState :=
  if s.pendingCount = 0 then
    (true, { s with pendingCount := 1, pendingDelay := delay })
  else
    (false, s)

/-- The primitive actions a driver function performs on its collaborators,
recorded in source order. -/
inductive FanAction where
  | cancelWork : FanAction
  | setPin : Int → FanAction
  | scheduleWork : Int → FanAction
deriving DecidableEq, Repr

/-- Apply one action to the state (results of the collaborator calls are
discarded, exactly as the C code discards them). -/
def applyAction (s : FanState) : FanAction → FanState
  | .cancelWork => (cancel_delayed_work s).2
  | .setPin v => gpio_set_value s v
  | .scheduleWork d => (schedule_delayed_work s d).2

/-- Run a trace of actions left to right. -/
def runTrace (s : FanState) (tr : List FanAction) : FanState :=
  tr.foldl applyAction s

/-- The body of `fan_work_func` as its action trace: read temperature
(passed in as `temp`, the result of `rockchip_tsadc_get_temp`), set the pin
by `if (temp > fan_data->trig_temp && temp != INVALID_TEMP)`, then
unconditionally reschedule after `GBOX_FAN_LOOP_SECS`. -/
def fan_work_func_trace (temp trig : Int) : List FanAction :=
  [ if temp > trig ∧ temp ≠ INVALID_TEMP then
      FanAction.setPin GBOX_FAN_GPIO_ON
    else
      FanAction.setPin GBOX_FAN_GPIO_OFF,
    FanAction.scheduleWork GBOX_FAN_LOOP_SECS ]

/-- `fan_work_func`: one execution of the poll tick on the state. -/
def fan_work_func (temp : Int) (s : FanState) : FanState :=
  runTrace s (fan_work_func_trace temp s.trig_temp)

/-- The `switch (fan_data->mode)` of `gbox_fan_mode_set` as an action
trace: OFF and ON cancel then set the pin; AUTO only schedules with zero
delay (no cancellation appears in that branch); the `default` branch does
nothing. -/
def gbox_fan_mode_set_trace (mode : Int) : List FanAction :=
  if mode = GBOX_FAN_STATE_OFF then
    [FanAction.cancelWork, FanAction.setPin GBOX_FAN_GPIO_OFF]
  else if mode = GBOX_FAN_STATE_ON then
    [FanAction.cancelWork, FanAction.setPin GBOX_FAN_GPIO_ON]
  else if mode = GBOX_FAN_STATE_AUTO then
    [FanAction.scheduleWork GBOX_FAN_LOOP_NODELAY_SECS]
  else
    []

/-- `gbox_fan_mode_set`: dispatch on the stored mode.  Returns `void` in C;
in particular the result of `schedule_delayed_work` is discarded. -/
def gbox_fan_mode_set (s : FanState) : FanState :=
  runTrace s (gbox_fan_mode_set_trace s.mode)

/-- `fan_mode_show`: formats `"Fan mode: %d\n"` with the stored mode. -/
def fan_mode_show (s : FanState) : String :=
  "Fan mode: " ++ toString s.mode ++ "\n"

/-- `fan_mode_store`: `parsed` is the result of `kstrtoint(buf, 3, &mode)`
(`none` when parsing fails).  On failure return `-EINVAL` and touch
nothing; on success store the parsed integer in `fan_data->mode`, call
`gbox_fan_mode_set`, and return `count`. -/
def fan_mode_store (s : FanState) (parsed : Option Int) (count : Nat) :
    FanState × Int :=
  match parsed with
  | none => (s, -EINVAL)
  | some mode =>
      let s1 : FanState := { s with mode := mode }
      (gbox_fan_mode_set s1, (count : Int))

/-- `gbox_fan_probe` (the part that builds the controller state):
`trig_temp` from the `trig-temp` devicetree property or the default
constant, pin driven to `GBOX_FAN_GPIO_OFF`, mode forced to
`GBOX_FAN_STATE_OFF`, no work pending. -/
def gbox_fan_probe (trig_conf : Option Int) : FanState :=
  { mode := GBOX_FAN_STATE_OFF
    trig_temp := trig_conf.getD GBOX_FAN_TRIG_TEMP
    pin := GBOX_FAN_GPIO_OFF
    pendingCount := 0
    pendingDelay := 0 }

/-- `gbox_fan_remove`: force mode OFF then run the mode dispatch. -/
def gbox_fan_remove (s : FanState) : FanState :=
  gbox_fan_mode_set { s with mode := GBOX_FAN_STATE_OFF }

/-- `gbox_fan_shutdown`: identical to removal — force mode OFF then run
the mode dispatch. -/
def gbox_fan_shutdown (s : FanState) : FanState :=
  gbox_fan_mode_set { s with mode := GBOX_FAN_STATE_OFF }

/-- The externally observable operations on a live controller: a mode
store (with its parse result and byte count), a poll tick firing (only
possible when a work item is pending; the workqueue dequeues the item
before running `fan_work_func`), removal, shutdown. -/
inductive FanOp where
  | store : Option Int → Nat → FanOp
  | tick : Int → FanOp
  | remove : FanOp
  | shutdown : FanOp
deriving DecidableEq, Repr

/-- Execute one operation on the state. -/
def runOp (s : FanState) : FanOp → FanState
  | .store parsed count => (fan_mode_store s parsed count).1
  | .tick temp =>
      if s.pendingCount = 0 then s
      else fan_work_func temp { s with pendingCount := s.pendingCount - 1 }
  | .remove => gbox_fan_remove s
  | .shutdown => gbox_fan_shutdown s

/-- Execute a sequence of operations left to right. -/
def runOps (s : FanState) (ops : List FanOp) : FanState :=
  ops.foldl runOp s

/-! ### Helper lemmas about the collaborator primitives -/

lemma schedule_delayed_work_pin (s : FanState) (d : Int) :
    ((schedule_delayed_work s d).2).pin = s.pin := by
  unfold schedule_delayed_work; split <;> rfl

lemma schedule_delayed_work_mode (s : FanState) (d : Int) :
    ((schedule_delayed_work s d).2).mode = s.mode := by
  unfold schedule_delayed_work; split <;> rfl

lemma schedule_delayed_work_trig (s : FanState) (d : Int) :
    ((schedule_delayed_work s d).2).trig_temp = s.trig_temp := by
  unfold schedule_delayed_work; split <;> rfl

lemma schedule_delayed_work_pendingCount_le (s : FanState) (d : Int)
    (h : s.pendingCount ≤ 1) : ((schedule_delayed_work s d).2).pendingCount ≤ 1 := by
  unfold schedule_delayed_work
  split
  · exact Nat.le_refl 1
  · exact h

lemma applyAction_trig (s : FanState) (a : FanAction) :
    (applyAction s a).trig_temp = s.trig_temp := by
  cases a with
  | cancelWork => rfl
  | setPin v => rfl
  | scheduleWork d => exact schedule_delayed_work_trig s d

lemma applyAction_mode (s : FanState) (a : FanAction) :
    (applyAction s a).mode = s.mode := by
  cases a with
  | cancelWork => rfl
  | setPin v => rfl
  | scheduleWork d => exact schedule_delayed_work_mode s d

lemma runTrace_trig (s : FanState) (tr : List FanAction) :
    (runTrace s tr).trig_temp = s.trig_temp := by
  induction tr generalizing s with
  | nil => rfl
  | cons a rest ih => rw [runTrace, List.foldl_cons, ← runTrace, ih, applyAction_trig]

lemma runTrace_mode (s : FanState) (tr : List FanAction) :
    (runTrace s tr).mode = s.mode := by
  induction tr generalizing s with
  | nil => rfl
  | cons a rest ih => rw [runTrace, List.foldl_cons, ← runTrace, ih, applyAction_mode]

/-- Closed form of `gbox_fan_mode_set`: the result of running each
branch's trace. -/
lemma gbox_fan_mode_set_eq (s : FanState) :
    gbox_fan_mode_set s =
      if s.mode = GBOX_FAN_STATE_OFF then
        { s with pendingCount := 0, pin := GBOX_FAN_GPIO_OFF }
      else if s.mode = GBOX_FAN_STATE_ON then
        { s with pendingCount := 0, pin := GBOX_FAN_GPIO_ON }
      else if s.mode = GBOX_FAN_STATE_AUTO then
        (schedule_delayed_work s GBOX_FAN_LOOP_NODELAY_SECS).2
      else s := by
  unfold gbox_fan_mode_set gbox_fan_mode_set_trace
  split_ifs <;> rfl

/-- Closed form of `fan_work_func`: pin write then reschedule. -/
lemma fan_work_func_eq (temp : Int) (s : FanState) :
    fan_work_func temp s =
      if temp > s.trig_temp ∧ temp ≠ INVALID_TEMP then
        (schedule_delayed_work { s with pin := GBOX_FAN_GPIO_ON }
          GBOX_FAN_LOOP_SECS).2
      else
        (schedule_delayed_work { s with pin := GBOX_FAN_GPIO_OFF }
          GBOX_FAN_LOOP_SECS).2 := by
  unfold fan_work_func fan_work_func_trace
  split_ifs <;> rfl

/-- The pin value after a poll tick. -/
lemma fan_work_func_pin (temp : Int) (s : FanState) :
    (fan_work_func temp s).pin =
      if temp > s.trig_temp ∧ temp ≠ INVALID_TEMP then GBOX_FAN_GPIO_ON
      else GBOX_FAN_GPIO_OFF := by
  rw [fan_work_func_eq]
  split_ifs <;> rw [schedule_delayed_work_pin]

lemma gbox_fan_mode_set_pendingCount_le (s : FanState) (h : s.pendingCount ≤ 1) :
    (gbox_fan_mode_set s).pendingCount ≤ 1 := by
  rw [gbox_fan_mode_set_eq]
  split_ifs
  · exact Nat.zero_le 1
  · exact Nat.zero_le 1
  · exact schedule_delayed_work_pendingCount_le s _ h
  · exact h

lemma fan_work_func_pendingCount_le (temp : Int) (s : FanState)
    (h : s.pendingCount ≤ 1) : (fan_work_func temp s).pendingCount ≤ 1 := by
  rw [fan_work_func_eq]
  split_ifs
  · exact schedule_delayed_work_pendingCount_le _ _ h
  · exact schedule_delayed_work_pendingCount_le _ _ h

lemma runOp_pendingCount_le (s : FanState) (op : FanOp)
    (h : s.pendingCount ≤ 1) : (runOp s op).pendingCount ≤ 1 := by
  cases op with
  | store parsed count =>
      cases parsed with
      | none => exact h
      | some m => exact gbox_fan_mode_set_pendingCount_le _ h
  | tick temp =>
      simp only [runOp]
      split
      · exact h
      · exact fan_work_func_pendingCount_le temp _ (Nat.le_trans (Nat.sub_le _ _) h)
  | remove => exact gbox_fan_mode_set_pendingCount_le _ h
  | shutdown => exact gbox_fan_mode_set_pendingCount_le _ h

lemma runOp_trig (s : FanState) (op : FanOp) :
    (runOp s op).trig_temp = s.trig_temp := by
  cases op with
  | store parsed count =>
      cases parsed with
      | none => rfl
      | some m => exact runTrace_trig _ _
  | tick temp =>
      simp only [runOp]
      split
      · rfl
      · exact runTrace_trig _ _
  | remove => exact runTrace_trig _ _
  | shutdown => exact runTrace_trig _ _

/-! ### Claim theorems -/

/-- C1: in every poll tick, the output pin is set ON iff the temperature
reading is valid (not `INVALID_TEMP`) and strictly greater than the
trigger temperature; in every other case — invalid reading, reading below
the trigger, or reading exactly equal to it — the pin is set OFF. -/
theorem C1_tick_decision (s : FanState) (temp : Int) :
    ((fan_work_func temp s).pin = GBOX_FAN_GPIO_ON ↔
      temp ≠ INVALID_TEMP ∧ temp > s.trig_temp) ∧
    ((fan_work_func temp s).pin = GBOX_FAN_GPIO_OFF ↔
      ¬ (temp ≠ INVALID_TEMP ∧ temp > s.trig_temp)) := by
  rw [fan_work_func_pin]
  by_cases h : temp > s.trig_temp ∧ temp ≠ INVALID_TEMP
  · rw [if_pos h]
    constructor
    · exact ⟨fun _ => ⟨h.2, h.1⟩, fun _ => rfl⟩
    · exact ⟨fun hc => absurd hc (by decide), fun hc => absurd ⟨h.2, h.1⟩ hc⟩
  · rw [if_neg h]
    have h' : ¬ (temp ≠ INVALID_TEMP ∧ temp > s.trig_temp) :=
      fun hc => h ⟨hc.2, hc.1⟩
    constructor
    · exact ⟨fun hc => absurd hc (by decide), fun hc => absurd hc h'⟩
    · exact ⟨fun _ => h', fun _ => rfl⟩

/-- C2: storing mode Off cancels the pending poll task (a safe no-op when
none exists) and drives the pin OFF within that one call; storing mode On
does the same with the pin driven ON — from every prior state. -/
theorem C2_set_mode_off_on (s : FanState) (count : Nat) :
    ((fan_mode_store s (some GBOX_FAN_STATE_OFF) count).1.pin = GBOX_FAN_GPIO_OFF ∧
     (fan_mode_store s (some GBOX_FAN_STATE_OFF) count).1.pendingCount = 0) ∧
    ((fan_mode_store s (some GBOX_FAN_STATE_ON) count).1.pin = GBOX_FAN_GPIO_ON ∧
     (fan_mode_store s (some GBOX_FAN_STATE_ON) count).1.pendingCount = 0) :=
  ⟨⟨rfl, rfl⟩, ⟨rfl, rfl⟩⟩

/-- C3: starting from a freshly probed controller, after any sequence of
mode stores, poll ticks, removals and shutdowns, at most one poll work
item is pending. -/
theorem C3_at_most_one_pending (conf : Option Int) (ops : List FanOp) :
    (runOps (gbox_fan_probe conf) ops).pendingCount ≤ 1 := by
  have key : ∀ l : List FanOp, ∀ t : FanState, t.pendingCount ≤ 1 →
      (runOps t l).pendingCount ≤ 1 := by
    intro l
    induction l with
    | nil => intro t h; exact h
    | cons op rest ih =>
        intro t h
        exact ih _ (runOp_pendingCount_le t op h)
  exact key ops _ (Nat.zero_le 1)

/-- C5: every execution of the poll tick ends by rescheduling itself with
the fixed 30-second delay, unconditionally: the trace of `fan_work_func`
takes no notice of the mode, its last action is the reschedule for every
reading `temp` (valid or the invalid sentinel), and running the tick from
any dequeued state leaves one work item pending with delay
`GBOX_FAN_LOOP_SECS = 30 * HZ`. -/
theorem C5_tick_always_reschedules (temp trig : Int) (s : FanState) :
    (∃ a : FanAction,
      fan_work_func_trace temp trig =
        [a, FanAction.scheduleWork GBOX_FAN_LOOP_SECS]) ∧
    GBOX_FAN_LOOP_SECS = 30 * HZ ∧
    (fan_work_func temp { s with pendingCount := 0 }).pendingCount = 1 ∧
    (fan_work_func temp { s with pendingCount := 0 }).pendingDelay =
      GBOX_FAN_LOOP_SECS := by
  refine ⟨⟨_, rfl⟩, rfl, ?_, ?_⟩ <;>
    · rw [fan_work_func_eq]
      split_ifs <;> rfl

/-- C9: the trigger temperature is set exactly once at probe time — to the
configured value when present, otherwise to the default constant 50 — and
no subsequent operation (mode store, poll tick, removal, shutdown) ever
changes it. -/
theorem C9_trig_temp_immutable (conf : Option Int) (ops : List FanOp) :
    (runOps (gbox_fan_probe conf) ops).trig_temp =
      conf.getD GBOX_FAN_TRIG_TEMP ∧
    GBOX_FAN_TRIG_TEMP = 50 := by
  constructor
  · have key : ∀ l : List FanOp, ∀ t : FanState,
        (runOps t l).trig_temp = t.trig_temp := by
      intro l
      induction l with
      | nil => intro t; rfl
      | cons op rest ih =>
          intro t
          rw [runOps, List.foldl_cons, ← runOps, ih, runOp_trig]
    rw [key]
    rfl
  · rfl

/-- C4 counterexample: entering Auto does NOT perform a cancellation —
the `GBOX_FAN_STATE_AUTO` branch of `gbox_fan_mode_set` consists of the
single action `schedule_delayed_work(&fan_data->work, 0)`, with no
`cancel_delayed_work` before it. -/
theorem C4_counterexample :
    gbox_fan_mode_set_trace GBOX_FAN_STATE_AUTO =
      [FanAction.scheduleWork GBOX_FAN_LOOP_NODELAY_SECS] ∧
    FanAction.cancelWork ∉ gbox_fan_mode_set_trace GBOX_FAN_STATE_AUTO := by
  decide

/-- C4 amended: on Off and On transitions `gbox_fan_mode_set` cancels the
pending task (safe no-op when none exists) before setting the pin; on
entering Auto it performs no cancellation and only schedules, which still
cannot leak tasks because scheduling while a task is pending is a no-op
(at most one task remains pending). -/
theorem C4_cancel_policy (s : FanState) (h : s.pendingCount ≤ 1) :
    gbox_fan_mode_set_trace GBOX_FAN_STATE_OFF =
      [FanAction.cancelWork, FanAction.setPin GBOX_FAN_GPIO_OFF] ∧
    gbox_fan_mode_set_trace GBOX_FAN_STATE_ON =
      [FanAction.cancelWork, FanAction.setPin GBOX_FAN_GPIO_ON] ∧
    gbox_fan_mode_set_trace GBOX_FAN_STATE_AUTO =
      [FanAction.scheduleWork GBOX_FAN_LOOP_NODELAY_SECS] ∧
    (gbox_fan_mode_set { s with mode := GBOX_FAN_STATE_AUTO }).pendingCount ≤ 1 := by
  refine ⟨by decide, by decide, by decide, ?_⟩
  exact gbox_fan_mode_set_pendingCount_le _ h

/-- C4 witness: the amended statement at the freshly probed state. -/
theorem C4_cancel_policy_witness :
    (gbox_fan_probe none).pendingCount ≤ 1 ∧
    (gbox_fan_mode_set
      { gbox_fan_probe none with mode := GBOX_FAN_STATE_AUTO }).pendingCount ≤ 1 :=
  ⟨by decide, (C4_cancel_policy (gbox_fan_probe none) (by decide)).2.2.2⟩

/-- C6 counterexample: the mode value 3 is outside the valid set (it is
supplied to the sysfs store as the string "10", which `kstrtoint` with
base 3 parses to 3), yet the call is not rejected: it returns the written
count 2 (not `-EINVAL`) and stores mode 3. -/
theorem C6_counterexample :
    (fan_mode_store (gbox_fan_probe none) (some 3) 2).2 = 2 ∧
    (fan_mode_store (gbox_fan_probe none) (some 3) 2).2 ≠ -EINVAL ∧
    (fan_mode_store (gbox_fan_probe none) (some 3) 2).1.mode = 3 := by
  decide

/-- C6 amended: the store interface rejects (with `-EINVAL`) exactly the
inputs that fail to parse, leaving the state untouched; every successfully
parsed integer — including values outside {Off, On, Auto} — is accepted:
the call returns the written count and the value is stored as the mode. -/
theorem C6_store_rejects_only_parse_failures (s : FanState) (m : Int)
    (count : Nat)
    (h : ¬ (m = GBOX_FAN_STATE_OFF ∨ m = GBOX_FAN_STATE_ON ∨
            m = GBOX_FAN_STATE_AUTO)) :
    (fan_mode_store s none count).2 = -EINVAL ∧
    (fan_mode_store s none count).1 = s ∧
    (fan_mode_store s (some m) count).2 = (count : Int) ∧
    (fan_mode_store s (some m) count).1.mode = m := by
  refine ⟨rfl, rfl, rfl, ?_⟩
  exact (runTrace_mode _ _).trans rfl

/-- C6 witness: the amended statement at mode value 7. -/
theorem C6_store_rejects_only_parse_failures_witness :
    (¬ ((7 : Int) = GBOX_FAN_STATE_OFF ∨ (7 : Int) = GBOX_FAN_STATE_ON ∨
        (7 : Int) = GBOX_FAN_STATE_AUTO)) ∧
    ((fan_mode_store (gbox_fan_probe none) none 5).2 = -EINVAL ∧
     (fan_mode_store (gbox_fan_probe none) none 5).1 = gbox_fan_probe none ∧
     (fan_mode_store (gbox_fan_probe none) (some 7) 5).2 = (5 : Int) ∧
     (fan_mode_store (gbox_fan_probe none) (some 7) 5).1.mode = 7) :=
  ⟨by decide,
   C6_store_rejects_only_parse_failures (gbox_fan_probe none) 7 5 (by decide)⟩

/-- C7 counterexample: from a state with a task already pending, the
scheduling collaborator does not accept the new task requested by
`set_mode(Auto)` (`schedule_delayed_work` returns false), yet the store
call still reports success: it returns the written count 1, not an error. -/
theorem C7_counterexample :
    (schedule_delayed_work { gbox_fan_probe none with pendingCount := 1 }
      GBOX_FAN_LOOP_NODELAY_SECS).1 = false ∧
    (fan_mode_store { gbox_fan_probe none with pendingCount := 1 }
      (some GBOX_FAN_STATE_AUTO) 1).2 = 1 := by
  decide

/-- C7 amended: `gbox_fan_mode_set` returns void and discards the result
of `schedule_delayed_work`, so a scheduling failure cannot reach the
caller: `set_mode(Auto)` through the store interface returns the written
count (success) from every prior state. -/
theorem C7_sched_result_not_reported (s : FanState) (count : Nat) :
    (fan_mode_store s (some GBOX_FAN_STATE_AUTO) count).2 = (count : Int) :=
  rfl

/-- C8: `set_mode(Auto)` schedules the poll tick with zero delay
(`GBOX_FAN_LOOP_NODELAY_SECS = 0`) and never touches the output pin: the
pin after the call, before the first tick runs, equals the pin before it;
from a state with no task pending, one task becomes pending with delay 0. -/
theorem C8_auto_schedules_immediate_pin_frame (s : FanState) (count : Nat) :
    gbox_fan_mode_set_trace GBOX_FAN_STATE_AUTO =
      [FanAction.scheduleWork GBOX_FAN_LOOP_NODELAY_SECS] ∧
    GBOX_FAN_LOOP_NODELAY_SECS = 0 ∧
    (fan_mode_store s (some GBOX_FAN_STATE_AUTO) count).1.pin = s.pin ∧
    (fan_mode_store { s with pendingCount := 0 }
      (some GBOX_FAN_STATE_AUTO) count).1.pendingCount = 1 ∧
    (fan_mode_store { s with pendingCount := 0 }
      (some GBOX_FAN_STATE_AUTO) count).1.pendingDelay = 0 := by
  refine ⟨rfl, rfl, ?_, rfl, rfl⟩
  show (gbox_fan_mode_set { s with mode := GBOX_FAN_STATE_AUTO }).pin = s.pin
  rw [gbox_fan_mode_set_eq]
  norm_num [GBOX_FAN_STATE_OFF, GBOX_FAN_STATE_ON, GBOX_FAN_STATE_AUTO]
  rw [schedule_delayed_work_pin]

/-- C10: a parsed mode value outside {0, 1, 2} is accepted by the store
interface: the call returns the written count, the stored mode becomes
that value — so `fan_mode_show` subsequently reports it — while the
dispatch falls into the `default` branch and leaves the pin and the
pending task untouched. -/
theorem C10_out_of_range_store_frame (s : FanState) (m : Int) (count : Nat)
    (h : ¬ (m = GBOX_FAN_STATE_OFF ∨ m = GBOX_FAN_STATE_ON ∨
            m = GBOX_FAN_STATE_AUTO)) :
    (fan_mode_store s (some m) count).2 = (count : Int) ∧
    (fan_mode_store s (some m) count).1.mode = m ∧
    fan_mode_show (fan_mode_store s (some m) count).1 =
      "Fan mode: " ++ toString m ++ "\n" ∧
    (fan_mode_store s (some m) count).1.pin = s.pin ∧
    (fan_mode_store s (some m) count).1.pendingCount = s.pendingCount ∧
    (fan_mode_store s (some m) count).1.pendingDelay = s.pendingDelay := by
  push_neg at h
  have hset : (fan_mode_store s (some m) count).1 = { s with mode := m } := by
    show gbox_fan_mode_set { s with mode := m } = { s with mode := m }
    rw [gbox_fan_mode_set_eq]
    simp only [h.1, h.2.1, h.2.2, if_false]
  refine ⟨rfl, ?_, ?_, ?_, ?_, ?_⟩ <;> rw [hset] <;> rfl

/-- C10 witness: the statement at mode value 7 on the freshly probed
state. -/
theorem C10_out_of_range_store_frame_witness :
    (¬ ((7 : Int) = GBOX_FAN_STATE_OFF ∨ (7 : Int) = GBOX_FAN_STATE_ON ∨
        (7 : Int) = GBOX_FAN_STATE_AUTO)) ∧
    ((fan_mode_store (gbox_fan_probe none) (some 7) 4).2 = (4 : Int) ∧
     (fan_mode_store (gbox_fan_probe none) (some 7) 4).1.mode = 7 ∧
     fan_mode_show (fan_mode_store (gbox_fan_probe none) (some 7) 4).1 =
       "Fan mode: " ++ toString (7 : Int) ++ "\n" ∧
     (fan_mode_store (gbox_fan_probe none) (some 7) 4).1.pin =
       (gbox_fan_probe none).pin ∧
     (fan_mode_store (gbox_fan_probe none) (some 7) 4).1.pendingCount =
       (gbox_fan_probe none).pendingCount ∧
     (fan_mode_store (gbox_fan_probe none) (some 7) 4).1.pendingDelay =
       (gbox_fan_probe none).pendingDelay) :=
  ⟨by decide,
   C10_out_of_range_store_frame (gbox_fan_probe none) 7 4 (by decide)⟩

end GboxFan
